import Mathlib

/-!
Verification of the request authentication and protection pipeline of the
snippet-sharing web application (Go), against its natural-language
specification.

The development is a shallow embedding of the relevant Go source:

* `internal/validator/validator.go` — the `Validator` error accumulator and
  its primitive predicates (`NotBlank`, `MinChars`, `MaxChars`, `Matches`,
  `PermittedValue`, `EmailRX`).
* `cmd/web` middleware — `noSurf`, `recoverPanic`, `authenticate`,
  `requireAuthentication` — and the helpers `serverError` and
  `isAuthenticated`.
* the `userLoginPost` handler.

Go maps are embedded as association lists (lookup finds the first binding,
like `context.WithValue` shadowing), Go's `http.Handler` as a state-passing
function from a request and application state to a response and a new state,
and panics as an explicit outcome constructor.  Collaborators that live
behind interfaces in the source (`UserModelInterface.Exists` /
`.Authenticate`) are parameters of the embedded functions, as they are
swappable implementations in the source.  Wall-clock time (`time.Now`) and
the random source behind token generation are not modelled: fresh tokens are
drawn from a counter, which preserves exactly the property the source relies
on (a renewed token is a newly generated one, and a token is unchanged unless
some call regenerates it).
-/

/-! ## Validator (internal/validator/validator.go) -/

/-- Embeds the Go struct `Validator`: a list of request-level errors plus a
map from field name to message.  The Go `map[string]string` is embedded as an
association list whose keys are unique by construction (`AddFieldError` only
ever inserts an absent key). -/
structure Validator where
  NonFieldErrors : List String := []
  FieldErrors : List (String × String) := []
deriving DecidableEq, Repr

/-- Embeds `Valid`: true iff there are no field errors and no non-field
errors. -/
def Validator.Valid (v : Validator) : Bool :=
  v.FieldErrors.length == 0 && v.NonFieldErrors.length == 0

/-- Embeds `AddNonFieldError`: append a request-level error message. -/
def Validator.AddNonFieldError (v : Validator) (message : String) : Validator :=
  { v with NonFieldErrors := v.NonFieldErrors ++ [message] }

/-- Embeds `AddFieldError`: record `message` under `key` only if no message
is registered for that key yet. -/
def Validator.AddFieldError (v : Validator) (key message : String) : Validator :=
  match v.FieldErrors.lookup key with
  | some _ => v
  | none => { v with FieldErrors := (key, message) :: v.FieldErrors }

/-- Embeds `CheckField`: add a field error if the validation check failed. -/
def Validator.CheckField (v : Validator) (ok : Bool) (key message : String) : Validator :=
  if !ok then v.AddFieldError key message else v

/-- A sequence of `CheckField` calls against one fixed field key, applied in
order.  Each element of `calls` is the pair (condition result, message). -/
def Validator.checkFieldSeq (v : Validator) (key : String)
    (calls : List (Bool × String)) : Validator :=
  calls.foldl (fun acc c => acc.CheckField c.1 key c.2) v

/-- One mutating operation on a `Validator`, used to quantify over arbitrary
sequences of the accumulator's mutators. -/
inductive VOp
  | checkField (ok : Bool) (key message : String)
  | addFieldError (key message : String)
  | addNonFieldError (message : String)
deriving DecidableEq, Repr

/-- Apply one mutating operation. -/
def Validator.applyOp (v : Validator) : VOp → Validator
  | .checkField ok key message => v.CheckField ok key message
  | .addFieldError key message => v.AddFieldError key message
  | .addNonFieldError message => v.AddNonFieldError message

/-! ## Primitive predicates (internal/validator/validator.go) -/

/-- The White_Space property used by Go's `unicode.IsSpace`, which is what
`strings.TrimSpace` trims. -/
def goIsSpace (c : Char) : Bool :=
  let n := c.toNat
  (9 ≤ n && n ≤ 13) || n == 32 || n == 0x85 || n == 0xA0 || n == 0x1680 ||
  (0x2000 ≤ n && n ≤ 0x200A) || n == 0x2028 || n == 0x2029 || n == 0x202F ||
  n == 0x205F || n == 0x3000

/-- Embeds `strings.TrimSpace`: drop leading and trailing white space. -/
def goTrimSpace (value : String) : String :=
  String.mk (((value.data.dropWhile goIsSpace).reverse.dropWhile goIsSpace).reverse)

/-- Embeds `NotBlank`: the value is not empty after trimming white space. -/
def NotBlank (value : String) : Bool :=
  goTrimSpace value != ""

/-- Embeds `utf8.RuneCountInString`: the number of Unicode code points of the
string (a Lean `String` is a sequence of code points, so this is the length
of its character list; Go strings reaching the validator are valid UTF-8). -/
def runeCountInString (value : String) : Nat :=
  value.data.length

/-- Embeds `MinChars`: at least `n` characters, counted in code points. -/
def MinChars (value : String) (n : Int) : Bool :=
  decide ((runeCountInString value : Int) ≥ n)

/-- Embeds `MaxChars`: at most `n` characters, counted in code points. -/
def MaxChars (value : String) (n : Int) : Bool :=
  decide ((runeCountInString value : Int) ≤ n)

/-- The number of bytes of the UTF-8 encoding of a string, for contrasting
the code-point count against the byte count. -/
def utf8ByteLength (s : String) : Nat :=
  s.data.foldl (fun n c => n + c.utf8Size) 0

/-- Embeds `PermittedValue`: membership in an explicit list of permitted
values. -/
def PermittedValue {α : Type} [BEq α] (value : α) (permittedValues : List α) : Bool :=
  permittedValues.contains value

/-- Characters admitted by the local-part character class of `EmailRX`
(letters, digits, and the listed punctuation, given by code point). -/
def isEmailLocalChar (c : Char) : Bool :=
  c.isAlphanum ||
  [33, 35, 36, 37, 38, 39, 42, 43, 45, 46, 47, 61, 63,
   94, 95, 96, 123, 124, 125, 126].contains c.toNat

/-- Characters admitted inside a domain label of `EmailRX`. -/
def isDomainLabelChar (c : Char) : Bool :=
  c.isAlphanum || c == '-'

/-- One domain label of `EmailRX`: one to sixty-three characters, first and
last alphanumeric, interior alphanumeric or hyphen.  This is exactly the
language of the label subexpression of the source pattern. -/
def matchesDomainLabel (l : List Char) : Bool :=
  !l.isEmpty && l.length ≤ 63 &&
  (match l.head? with | some c => c.isAlphanum | none => false) &&
  (match l.getLast? with | some c => c.isAlphanum | none => false) &&
  l.all isDomainLabelChar

/-- Split a character list on a separator character; the separator occurs
between the returned chunks, so n separators yield n + 1 chunks. -/
def splitOnChar (sep : Char) : List Char → List (List Char)
  | [] => [[]]
  | c :: rest =>
    if c == sep then [] :: splitOnChar sep rest
    else
      match splitOnChar sep rest with
      | [] => [[c]]
      | chunk :: chunks => (c :: chunk) :: chunks

/-- Decides the language of the anchored source pattern `EmailRX`: a
non-empty local part over the local character class, an at sign, then one or
more dot-separated domain labels.  Neither side of the at sign may contain a
further at sign, which the two-way split enforces. -/
def EmailRX (s : String) : Bool :=
  match splitOnChar '@' s.data with
  | [localPart, domain] =>
    !localPart.isEmpty && localPart.all isEmailLocalChar &&
    ((splitOnChar '.' domain).all matchesDomainLabel)
  | _ => false

/-- Embeds `Matches`: the value matches the given pattern's language. -/
def Matches (value : String) (rx : String → Bool) : Bool :=
  rx value

/-! ## Session, request and application state -/

/-- A value stored in the session's key-value data (the source stores the
principal identifier as an int and the flash message as a string). -/
inductive SessVal
  | int (n : Int)
  | str (s : String)
deriving DecidableEq, Repr

/-- The per-request session handle of the scs session manager: the opaque
session token plus the key-value data. -/
structure SessionRecord where
  token : String
  data : List (String × SessVal) := []
deriving DecidableEq, Repr

/-- Embeds `sessionManager.GetInt`: the int under `key`, or zero when the
key is absent or does not hold an int. -/
def SessionRecord.getInt (s : SessionRecord) (key : String) : Int :=
  match s.data.lookup key with
  | some (.int n) => n
  | _ => 0

/-- Embeds `sessionManager.Put`: set `key` to `v`, replacing any previous
binding. -/
def SessionRecord.put (s : SessionRecord) (key : String) (v : SessVal) : SessionRecord :=
  { s with data := (key, v) :: s.data.filter (fun kv => kv.1 != key) }

/-- Embeds `sessionManager.Remove`: delete any binding for `key`. -/
def SessionRecord.remove (s : SessionRecord) (key : String) : SessionRecord :=
  { s with data := s.data.filter (fun kv => kv.1 != key) }

/-- Embeds `sessionManager.PopString`: read the string under `key` (empty
string when absent or not a string) and delete the binding. -/
def SessionRecord.popString (s : SessionRecord) (key : String) : String × SessionRecord :=
  (match s.data.lookup key with
   | some (.str m) => m
   | _ => "", s.remove key)

/-- One entry of the application's error log: `serverError` writes the error
message together with a full `debug.Stack()` trace. -/
structure LogEntry where
  message : String
  hasStackTrace : Bool
deriving DecidableEq, Repr

/-- The state threaded through a request: the session handle attached by the
session middleware, the client's nosurf base-token cookie, a counter acting
as the fresh-token source, and the two log streams (`errorLog` carries error
severity, `infoLog` information severity). -/
structure AppState where
  session : SessionRecord
  csrfCookie : Option String := none
  freshCounter : Nat := 0
  errorLog : List LogEntry := []
  infoLog : List String := []
deriving DecidableEq, Repr

/-- The token produced by the n-th draw from the fresh-token source. -/
def freshToken (n : Nat) : String :=
  "token-" ++ toString n

/-- Embeds `sessionManager.RenewToken`: the session keeps its data but gets a
newly generated token. -/
def AppState.renewToken (st : AppState) : AppState :=
  { st with
    session := { st.session with token := freshToken st.freshCounter }
    freshCounter := st.freshCounter + 1 }

/-- Embeds the Go type `contextKey`, the dedicated key type for request
context values (`type contextKey string`).  Request context keys are a type
of their own, so nothing decoded from client input can collide with them. -/
structure ContextKey where
  name : String
deriving DecidableEq, Repr

/-- Embeds `isAuthenticatedContextKey = contextKey("isAuthenticated")`. -/
def isAuthenticatedContextKey : ContextKey :=
  ⟨"isAuthenticated"⟩

/-- A value stored in the request context.  `context.WithValue` is untyped,
so the embedding keeps a sum of the shapes a value could take; the
`isAuthenticated` helper type-asserts on `bool`. -/
inductive CtxVal
  | bool (b : Bool)
  | int (n : Int)
  | str (s : String)
deriving DecidableEq, Repr

/-- An inbound HTTP request: method, URL path, decoded form data, and the
request-scoped context.  `context.WithValue` wraps the previous context, so
the context is an association list where the newest binding shadows. -/
structure Request where
  method : String
  url : String
  form : List (String × String) := []
  ctx : List (ContextKey × CtxVal) := []
deriving DecidableEq, Repr

/-- Embeds `r.WithContext(context.WithValue(r.Context(), k, v))`. -/
def Request.withContextValue (r : Request) (k : ContextKey) (v : CtxVal) : Request :=
  { r with ctx := (k, v) :: r.ctx }

/-- Embeds the helper `app.isAuthenticated`: look up the dedicated context
key and type-assert the value to `bool`; any failure of the assertion
(absent key or non-boolean value) yields `false`. -/
def isAuthenticated (r : Request) : Bool :=
  match r.ctx.lookup isAuthenticatedContextKey with
  | some (.bool b) => b
  | _ => false

/-! ## Responses, templates and handlers -/

/-- Embeds the `templateData` struct handed to the rendering layer.  `Form`
has type `any` in the source; the only form the claims inspect is the login
form, so the payload is specialised to it. -/
structure UserLoginForm where
  Email : String
  Password : String
  validator : Validator := {}
deriving DecidableEq, Repr

/-- Promotion of the embedded validator's `CheckField` to the form struct,
as Go's struct embedding promotes it. -/
def UserLoginForm.CheckField (f : UserLoginForm) (ok : Bool) (key message : String) :
    UserLoginForm :=
  { f with validator := f.validator.CheckField ok key message }

/-- Promotion of the embedded validator's `AddNonFieldError`. -/
def UserLoginForm.AddNonFieldError (f : UserLoginForm) (message : String) : UserLoginForm :=
  { f with validator := f.validator.AddNonFieldError message }

/-- The rendering context bundle (`templateData`).  `CurrentYear` is
cosmetic wall-clock data and is embedded as a constant. -/
structure TemplateData where
  CurrentYear : Int := 0
  Flash : String := ""
  IsAuthenticated : Bool := false
  CSRFToken : String := ""
  Form : Option UserLoginForm := none
deriving DecidableEq, Repr

/-- The body of a response: plain text, a rendered page with its template
data, or nothing (redirects). -/
inductive Body
  | text (s : String)
  | page (nm : String) (data : TemplateData)
  | empty
deriving DecidableEq, Repr

/-- An HTTP response: status code, headers, body. -/
structure Response where
  status : Nat
  headers : List (String × String) := []
  body : Body := .empty
deriving DecidableEq, Repr

/-- The page name of a rendered response, if it rendered one. -/
def Response.renderedPage (resp : Response) : Option String :=
  match resp.body with
  | .page nm _ => some nm
  | _ => none

/-- The form payload of a rendered response, if any. -/
def Response.renderedForm (resp : Response) : Option UserLoginForm :=
  match resp.body with
  | .page _ data => data.Form
  | _ => none

/-- A handler or middleware stage: from a request and the application state
to a response and the new state (the embedding of `http.Handler` for the
stages that cannot panic). -/
abbrev Handler := Request → AppState → Response × AppState

/-- Embeds `app.serverError`: log the error message together with a stack
trace on the error-severity log, and answer a generic
`http.StatusText(http.StatusInternalServerError)` body with status 500. -/
def AppState.serverError (st : AppState) (err : String) : Response × AppState :=
  ({ status := 500, headers := [], body := .text "Internal Server Error" },
   { st with errorLog := { message := err, hasStackTrace := true } :: st.errorLog })

/-- Embeds `app.render`: write the status code and the page rendered from
the template data.  The template cache of the running application contains
every page, so the missing-template fault branch of the source is
unreachable and not modelled. -/
def render (status : Nat) (page : String) (data : TemplateData) : Response :=
  { status := status, headers := [], body := .page page data }

/-- Embeds `http.Redirect(w, r, url, code)`. -/
def redirectResponse (url : String) (code : Nat) : Response :=
  { status := code, headers := [("Location", url)], body := .empty }

/-- Embeds `app.newTemplateData`: pop the one-shot flash message from the
session, read the authentication flag from the request context, and expose
the request's CSRF token (`nosurf.Token`), which is the session's base token;
per-request masking of the token is not modelled. -/
def newTemplateData (r : Request) (st : AppState) : TemplateData × AppState :=
  let (flash, session) := st.session.popString "flash"
  ({ CurrentYear := 0
     Flash := flash
     IsAuthenticated := isAuthenticated r
     CSRFToken := st.csrfCookie.getD ""
     Form := none },
   { st with session := session })

/-! ## Middleware (cmd/web middleware file) -/

/-- Methods exempt from CSRF verification (the safe methods of the nosurf
library wired in by `noSurf`). -/
def safeMethod (m : String) : Bool :=
  m == "GET" || m == "HEAD" || m == "OPTIONS" || m == "TRACE"

/-- Modelled from the spec: the rejection response of the CSRF guard.  The
failure handler lives inside the external `github.com/justinas/nosurf`
dependency, whose source is not part of this repository; the spec prescribes
a 403-class response for a CSRF violation. -/
def csrfFailureResponse : Response :=
  { status := 403, headers := [], body := .text "Forbidden" }

/-- Modelled from the spec: token issuance of the CSRF guard (inside the
external nosurf dependency).  On the first request of a session, with no
token yet, a fresh token is generated and set as the base cookie; afterwards
the existing base token is used. -/
def ensureCSRFBase (st : AppState) : String × AppState :=
  match st.csrfCookie with
  | some t => (t, st)
  | none =>
    (freshToken st.freshCounter,
     { st with csrfCookie := some (freshToken st.freshCounter)
               freshCounter := st.freshCounter + 1 })

/-- Embeds the `noSurf` middleware.  The wrapper in the source hands the
next handler to `nosurf.New` and sets the base cookie attributes; the
verification step itself is modelled from the spec (the nosurf internals are
an external dependency): on a state-changing request, the token submitted in
the `csrf_token` form field is compared against the session's stored base
token, and mismatch or absence rejects the request without invoking the
wrapped handler. -/
def noSurf (next : Handler) : Handler := fun r st =>
  let (base, st1) := ensureCSRFBase st
  if safeMethod r.method then next r st1
  else
    match r.form.lookup "csrf_token" with
    | some t => if t == base then next r st1 else (csrfFailureResponse, st1)
    | none => (csrfFailureResponse, st1)

/-- Embeds the `authenticate` middleware: read the principal identifier from
the session (`GetInt` yields zero when absent); zero means anonymous, pass
through.  Otherwise re-check existence against the user store: a store error
is a server fault; a missing user passes through as anonymous; an existing
user gets the `isAuthenticated` flag set on the request context. -/
def authenticate (usersExists : Int → Except String Bool) (next : Handler) : Handler :=
  fun r st =>
    let id := st.session.getInt "authenticatedUserID"
    if id == 0 then next r st
    else
      match usersExists id with
      | .error e => st.serverError e
      | .ok true => next (r.withContextValue isAuthenticatedContextKey (.bool true)) st
      | .ok false => next r st

/-- Embeds the `requireAuthentication` middleware: an anonymous request is
answered with a 303 redirect to the login page, without invoking the inner
handler; an authenticated request gets a `Cache-Control: no-store` header
added to its response and the inner handler runs. -/
def requireAuthentication (next : Handler) : Handler := fun r st =>
  if isAuthenticated r = false then
    (redirectResponse "/user/login" 303, st)
  else
    let (resp, st1) := next r st
    ({ resp with headers := ("Cache-Control", "no-store") :: resp.headers }, st1)

/-- The outcome of a stage that may panic: a normal response, or an
unrecovered panic carrying the panic value and the state at the point of the
panic. -/
inductive HandlerOutcome
  | ok (resp : Response) (st : AppState)
  | panicked (msg : String) (st : AppState)
deriving DecidableEq, Repr

/-- A handler or middleware stage that may panic. -/
abbrev PHandler := Request → AppState → HandlerOutcome

/-- Embeds the `recoverPanic` middleware: a normal outcome passes through
untouched; a panic is recovered, a `Connection: close` header marks the
connection non-reusable, and `serverError` logs the panic value with a stack
trace and produces the generic 500 response. -/
def recoverPanic (next : PHandler) : PHandler := fun r st =>
  match next r st with
  | .ok resp st1 => .ok resp st1
  | .panicked msg st1 =>
    let (resp, st2) := st1.serverError msg
    .ok { resp with headers := ("Connection", "close") :: resp.headers } st2

/-! ## Login handler (userLoginPost) -/

/-- The error outcomes of `UserModelInterface.Authenticate`:
`models.ErrInvalidCredentials`, or any other (store) error. -/
inductive AuthError
  | errInvalidCredentials
  | other (msg : String)
deriving DecidableEq, Repr

/-- Embeds `userLoginPost`, parametrised by the user store's `Authenticate`
collaborator.  The form decoder fills absent fields with the zero value, so
decoding is total here.  The three `CheckField` validations mirror the
source; a validation failure re-renders the login page with status 422; an
`ErrInvalidCredentials` outcome records the single non-field error and
re-renders with 422; any other error is a server fault; success renews the
session token, stores the principal identifier in the session, and redirects
with 303 to the snippet-creation page. -/
def userLoginPost (usersAuthenticate : String → String → Except AuthError Int) : Handler :=
  fun r st =>
    let form0 : UserLoginForm :=
      { Email := (r.form.lookup "email").getD ""
        Password := (r.form.lookup "password").getD "" }
    let form1 := form0.CheckField (NotBlank form0.Email) "email"
      "This field cannot be blank"
    let form2 := form1.CheckField (Matches form1.Email EmailRX) "email"
      "This field must be a valid email address."
    let form3 := form2.CheckField (NotBlank form2.Password) "password"
      "This field cannot be blank"
    if form3.validator.Valid = false then
      let (data, st1) := newTemplateData r st
      (render 422 "login.tmpl" { data with Form := some form3 }, st1)
    else
      match usersAuthenticate form3.Email form3.Password with
      | .error .errInvalidCredentials =>
        let form4 := form3.AddNonFieldError "Email or password is incorrect"
        let (data, st1) := newTemplateData r st
        (render 422 "login.tmpl" { data with Form := some form4 }, st1)
      | .error (.other e) => st.serverError e
      | .ok id =>
        let st1 := st.renewToken
        let st2 := { st1 with session := st1.session.put "authenticatedUserID" (.int id) }
        (redirectResponse "/snippet/create" 303, st2)

/-! ## Concrete collaborators and fixtures for witnesses and counterexamples -/

/-- A concrete user store with exactly the user of identifier one. -/
def usersExistsC (id : Int) : Except String Bool :=
  .ok (id == 1)

/-- A concrete authenticator: one known credential pair mapping to user
one; everything else is invalid credentials. -/
def usersAuthenticateC (email password : String) : Except AuthError Int :=
  if email == "alice@example.com" && password == "pa55word" then .ok 1
  else .error .errInvalidCredentials

/-- A pre-login application state: an anonymous session and a CSRF base
token already fixed in the client's cookie. -/
def st0C : AppState :=
  { session := { token := "sessA" }, csrfCookie := some "csrfOld" }

/-- A login submission carrying the pre-login CSRF token and the valid
credentials. -/
def loginReqC : Request :=
  { method := "POST", url := "/user/login"
    form := [("csrf_token", "csrfOld"), ("email", "alice@example.com"),
             ("password", "pa55word")] }

/-- The dynamic chain from the CSRF guard inwards, ending at the login
handler (session load/save, which brackets the chain, is the state threading
itself in this embedding). -/
def loginPipeline (usersExists : Int → Except String Bool)
    (usersAuthenticate : String → String → Except AuthError Int) : Handler :=
  noSurf (authenticate usersExists (userLoginPost usersAuthenticate))

/-- A probe response whose appearance proves the wrapped handler ran. -/
def probeResponse : Response :=
  { status := 200, headers := [], body := .text "handler ran" }

/-- A probe handler observably distinct from every rejection response. -/
def probeHandler : Handler := fun _ st => (probeResponse, st)

/-- A state-changing request that echoes the pre-login CSRF token. -/
def replayReqC : Request :=
  { method := "POST", url := "/snippet/create"
    form := [("csrf_token", "csrfOld")] }

/-- A state-changing request with no CSRF token at all. -/
def missingTokenReqC : Request :=
  { method := "POST", url := "/snippet/create", form := [] }

/-- A panicking handler for the recovery witness. -/
def panickingHandlerC : PHandler := fun _ st => .panicked "boom" st

/-- A request already resolved as authenticated by the auth resolver. -/
def authedReqC : Request :=
  { method := "GET", url := "/snippet/create"
    ctx := [(isAuthenticatedContextKey, .bool true)] }

/-- An anonymous request (no context values at all). -/
def anonReqC : Request :=
  { method := "GET", url := "/snippet/create" }

/-- A state whose session still points at user two, who no longer exists in
`usersExistsC`. -/
def staleSessionStC : AppState :=
  { session := { token := "sessB", data := [("authenticatedUserID", .int 2)] } }

/-- A login submission with a known email and a wrong password. -/
def wrongPasswordReqC : Request :=
  { method := "POST", url := "/user/login"
    form := [("email", "alice@example.com"), ("password", "wrongpw")] }

/-! ## Helper lemmas -/

/-- Helper: an already-registered field error survives any further sequence
of checks against the same key. -/
theorem checkFieldSeq_keeps_some (key m : String) :
    ∀ (calls : List (Bool × String)) (v : Validator),
      v.FieldErrors.lookup key = some m →
      (v.checkFieldSeq key calls).FieldErrors.lookup key = some m := by
  intro calls
  induction calls with
  | nil => intro v h; simpa [Validator.checkFieldSeq] using h
  | cons c rest ih =>
    intro v h
    have hstep : (v.CheckField c.1 key c.2).FieldErrors.lookup key = some m := by
      cases hb : c.1 with
      | true => simpa [Validator.CheckField, hb] using h
      | false => simp [Validator.CheckField, hb, Validator.AddFieldError, h]
    have hseq : Validator.checkFieldSeq v key (c :: rest)
        = Validator.checkFieldSeq (v.CheckField c.1 key c.2) key rest := rfl
    rw [hseq]
    exact ih _ hstep

/-- Helper: registering a field error for an absent key makes it the
looked-up message. -/
theorem addFieldError_lookup_absent (v : Validator) (key m : String)
    (h : v.FieldErrors.lookup key = none) :
    (v.AddFieldError key m).FieldErrors.lookup key = some m := by
  simp [Validator.AddFieldError, h, List.lookup]

/-- Helper: registering any field error leaves the field-error map
non-empty. -/
theorem addFieldError_fieldErrors_ne_nil (v : Validator) (key m : String) :
    (v.AddFieldError key m).FieldErrors ≠ [] := by
  unfold Validator.AddFieldError
  cases hl : v.FieldErrors.lookup key with
  | some m0 =>
    intro hnil
    simp only at hnil
    rw [hnil] at hl
    simp [List.lookup] at hl
  | none => simp

/-- Helper: `AddFieldError` always leaves the validator invalid. -/
theorem addFieldError_valid_false (v : Validator) (key m : String) :
    (v.AddFieldError key m).Valid = false := by
  have h := addFieldError_fieldErrors_ne_nil v key m
  unfold Validator.Valid
  cases he : (v.AddFieldError key m).FieldErrors with
  | nil => exact absurd he h
  | cons a l => simp

/-- Helper: `AddNonFieldError` always leaves the validator invalid. -/
theorem addNonFieldError_valid_false (v : Validator) (m : String) :
    (v.AddNonFieldError m).Valid = false := by
  simp [Validator.AddNonFieldError, Validator.Valid]

/-- Helper: no single mutating operation can turn an invalid validator
valid. -/
theorem applyOp_valid_mono (op : VOp) (v : Validator)
    (h : (v.applyOp op).Valid = true) : v.Valid = true := by
  cases op with
  | checkField ok key message =>
    cases hb : ok with
    | true => simpa [Validator.applyOp, Validator.CheckField, hb] using h
    | false =>
      rw [hb] at h
      have : (v.AddFieldError key message).Valid = true := by
        simpa [Validator.applyOp, Validator.CheckField] using h
      rw [addFieldError_valid_false] at this
      exact absurd this (by simp)
  | addFieldError key message =>
    have : (v.AddFieldError key message).Valid = true := h
    rw [addFieldError_valid_false] at this
    exact absurd this (by simp)
  | addNonFieldError message =>
    have : (v.AddNonFieldError message).Valid = true := h
    rw [addNonFieldError_valid_false] at this
    exact absurd this (by simp)

/-- Helper: no sequence of mutating operations can turn an invalid
validator valid. -/
theorem foldl_applyOp_valid_mono :
    ∀ (ops : List VOp) (v : Validator),
      (ops.foldl Validator.applyOp v).Valid = true → v.Valid = true := by
  intro ops
  induction ops with
  | nil => intro v h; simpa using h
  | cons op rest ih =>
    intro v h
    exact applyOp_valid_mono op v (ih (v.applyOp op) (by simpa [List.foldl] using h))

/-! ## Claim theorems -/

/-- C6: for every sequence of `CheckField` calls on the same validator with
the same field key, starting from a validator with no error registered for
that key, the message recorded for that key afterwards is the message of the
first call whose condition was false (and `none` when no call failed); later
failing checks are ignored and do not overwrite it. -/
theorem checkField_first_failure_wins (v : Validator) (key : String)
    (calls : List (Bool × String))
    (h : v.FieldErrors.lookup key = none) :
    (v.checkFieldSeq key calls).FieldErrors.lookup key
      = (calls.find? (fun c => !c.1)).map Prod.snd := by
  induction calls generalizing v with
  | nil => simpa [Validator.checkFieldSeq] using h
  | cons c rest ih =>
    have hseq : Validator.checkFieldSeq v key (c :: rest)
        = Validator.checkFieldSeq (v.CheckField c.1 key c.2) key rest := rfl
    rw [hseq]
    cases hb : c.1 with
    | true =>
      have hid : v.CheckField true key c.2 = v := by
        simp [Validator.CheckField]
      rw [hid, List.find?_cons_of_neg _ (by simp [hb])]
      exact ih v h
    | false =>
      have hstep : (v.CheckField false key c.2).FieldErrors.lookup key = some c.2 := by
        have := addFieldError_lookup_absent v key c.2 h
        simpa [Validator.CheckField] using this
      rw [checkFieldSeq_keeps_some key c.2 rest _ hstep,
        List.find?_cons_of_pos _ (by simp [hb])]
      simp

/-- C6 witness: a passing check, then two failing checks against the same
key; the first failing message is retained and the second is ignored. -/
theorem checkField_first_failure_wins_witness :
    (({} : Validator).checkFieldSeq "title"
        [(true, "msgA"), (false, "msgB"), (false, "msgC")]).FieldErrors.lookup "title"
      = some "msgB" :=
  (checkField_first_failure_wins {} "title"
    [(true, "msgA"), (false, "msgB"), (false, "msgC")] (by decide)).trans (by decide)

/-- C7: `Valid` is true exactly when both error collections are empty; any
`AddFieldError` or `AddNonFieldError` call leaves the validator invalid, and
an invalid validator stays invalid under every further sequence of add and
check operations. -/
theorem valid_iff_empty_and_errors_persist (v : Validator) :
    (v.Valid = true ↔ (v.FieldErrors = [] ∧ v.NonFieldErrors = [])) ∧
    (∀ key message, (v.AddFieldError key message).Valid = false) ∧
    (∀ message, (v.AddNonFieldError message).Valid = false) ∧
    (∀ ops : List VOp, v.Valid = false →
      (ops.foldl Validator.applyOp v).Valid = false) := by
  refine ⟨?_, ?_, ?_, ?_⟩
  · simp [Validator.Valid, List.length_eq_zero]
  · intro key message
    exact addFieldError_valid_false v key message
  · intro message
    exact addNonFieldError_valid_false v message
  · intro ops h
    cases hres : (ops.foldl Validator.applyOp v).Valid with
    | false => rfl
    | true =>
      rw [foldl_applyOp_valid_mono ops v hres] at h
      exact absurd h (by simp)

/-- C7 witness: a concrete validator made invalid by one non-field error
stays invalid across a later field-error operation. -/
theorem valid_iff_empty_and_errors_persist_witness :
    (([VOp.addFieldError "title" "late"].foldl Validator.applyOp
        (({} : Validator).AddNonFieldError "bad credentials")).Valid = false) :=
  (valid_iff_empty_and_errors_persist
      (({} : Validator).AddNonFieldError "bad credentials")).2.2.2
    [VOp.addFieldError "title" "late"] (by decide)

/-- C8: `NotBlank` holds exactly when the value is non-empty after trimming
white space, and `MinChars` and `MaxChars` compare the number of Unicode
code points against the bound; the closing conjunct separates code points
from bytes on a two-code-point, four-byte string. -/
theorem primitive_predicates_count_code_points (value : String) (n : Int) :
    (NotBlank value = true ↔ goTrimSpace value ≠ "") ∧
    (MinChars value n = true ↔ n ≤ (runeCountInString value : Int)) ∧
    (MaxChars value n = true ↔ (runeCountInString value : Int) ≤ n) ∧
    (runeCountInString value = value.data.length) ∧
    (MinChars "αβ" 3 = false ∧ MaxChars "αβ" 3 = true ∧
      runeCountInString "αβ" = 2 ∧ utf8ByteLength "αβ" = 4) := by
  refine ⟨?_, ?_, ?_, rfl, ?_⟩
  · simp [NotBlank]
  · simp [MinChars, ge_iff_le]
  · simp [MaxChars]
  · refine ⟨by decide, by decide, rfl, by decide⟩

/-- C10: the `isAuthenticated` helper answers true exactly when the request
context holds the boolean value true under the dedicated context key; an
absent key or a non-boolean stored value yields false, so a request that
never passed through the `authenticate` middleware is treated as
anonymous. -/
theorem isAuthenticated_iff_context_true (r : Request) :
    isAuthenticated r = true ↔
      r.ctx.lookup isAuthenticatedContextKey = some (.bool true) := by
  unfold isAuthenticated
  cases h : r.ctx.lookup isAuthenticatedContextKey with
  | none => simp
  | some v =>
    cases v with
    | bool b => cases b <;> simp
    | int n => simp
    | str s => simp

/-- C2: a state-changing request whose submitted CSRF token is missing or
differs from the session's stored base token is answered with the 403-class
rejection, and the wrapped handler is never invoked: the outcome is the same
for every possible inner handler and carries no handler side effects. -/
theorem noSurf_rejects_invalid_csrf (next : Handler) (r : Request) (st : AppState)
    (hmethod : safeMethod r.method = false)
    (htoken : r.form.lookup "csrf_token" = none ∨
      r.form.lookup "csrf_token" ≠ some (ensureCSRFBase st).1) :
    noSurf next r st = (csrfFailureResponse, (ensureCSRFBase st).2) := by
  unfold noSurf
  rcases hE : ensureCSRFBase st with ⟨base, st1⟩
  dsimp only
  simp only [hmethod, Bool.false_eq_true, if_false]
  cases hL : r.form.lookup "csrf_token" with
  | none => rfl
  | some t =>
    rcases htoken with hnone | hne
    · rw [hL] at hnone
      exact absurd hnone (by simp)
    · rw [hL] at hne
      have hbeq : (t == base) = false := by
        refine beq_eq_false_iff_ne.mpr ?_
        intro hcontra
        exact hne (by rw [hcontra, hE])
      simp [hbeq]

/-- C2 witness: a POST with no CSRF token at all is rejected. -/
theorem noSurf_rejects_invalid_csrf_witness :
    noSurf probeHandler missingTokenReqC st0C
      = (csrfFailureResponse, (ensureCSRFBase st0C).2) :=
  noSurf_rejects_invalid_csrf probeHandler missingTokenReqC st0C (by decide)
    (Or.inl (by decide))

/-- C3: a request whose session holds no principal key (`GetInt` zero) or a
principal the user store reports as non-existent without error proceeds to
the next handler unchanged — resolved as anonymous, with no fault
response. -/
theorem authenticate_resolves_anonymous (usersExists : Int → Except String Bool)
    (next : Handler) (r : Request) (st : AppState)
    (hid : st.session.getInt "authenticatedUserID" = 0 ∨
      usersExists (st.session.getInt "authenticatedUserID") = .ok false)
    (hctx : r.ctx.lookup isAuthenticatedContextKey = none) :
    authenticate usersExists next r st = next r st ∧ isAuthenticated r = false := by
  constructor
  · unfold authenticate
    rcases hid with h0 | hfalse
    · simp [h0]
    · cases hz : (st.session.getInt "authenticatedUserID" == 0) with
      | true => simp [hz]
      | false => simp [hz, hfalse]
  · simp [isAuthenticated, hctx]

/-- C3 witness: a session pointing at the deleted user two passes through
anonymously. -/
theorem authenticate_resolves_anonymous_witness :
    authenticate usersExistsC probeHandler anonReqC staleSessionStC
        = probeHandler anonReqC staleSessionStC ∧
      isAuthenticated anonReqC = false :=
  authenticate_resolves_anonymous usersExistsC probeHandler anonReqC staleSessionStC
    (Or.inr rfl) (by decide)

/-- C4: an anonymous request at the authentication gate is answered with a
303 redirect to the login page for every possible inner handler (the handler
does not run, the state is untouched); an authenticated request gets the
no-store cache directive added to the inner handler's response. -/
theorem requireAuthentication_gate (next : Handler) (r : Request) (st : AppState) :
    (isAuthenticated r = false →
      requireAuthentication next r st = (redirectResponse "/user/login" 303, st)) ∧
    (isAuthenticated r = true →
      requireAuthentication next r st =
        ({ (next r st).1 with
            headers := ("Cache-Control", "no-store") :: (next r st).1.headers },
          (next r st).2)) := by
  constructor
  · intro h
    simp [requireAuthentication, h]
  · intro h
    unfold requireAuthentication
    rw [h]
    rcases hN : next r st with ⟨resp, st1⟩
    simp

/-- C4 witness: the anonymous probe request is redirected and the probe
handler never runs; the authenticated probe request gets the no-store
header on the probe response. -/
theorem requireAuthentication_gate_witness :
    (requireAuthentication probeHandler anonReqC st0C
        = (redirectResponse "/user/login" 303, st0C)) ∧
    (requireAuthentication probeHandler authedReqC st0C =
      ({ (probeHandler authedReqC st0C).1 with
          headers := ("Cache-Control", "no-store")
            :: (probeHandler authedReqC st0C).1.headers },
        (probeHandler authedReqC st0C).2)) :=
  ⟨(requireAuthentication_gate probeHandler anonReqC st0C).1 (by decide),
   (requireAuthentication_gate probeHandler authedReqC st0C).2 (by decide)⟩

/-- C5: whenever the wrapped chain panics, `recoverPanic` recovers: the
response carries the `Connection: close` marker, has status 500 with the
generic body that leaks nothing of the panic value, and the panic value is
logged with a full stack trace on the error-severity log. -/
theorem recoverPanic_recovers (next : PHandler) (r : Request) (st st1 : AppState)
    (msg : String) (h : next r st = .panicked msg st1) :
    recoverPanic next r st =
      .ok { status := 500
            headers := [("Connection", "close")]
            body := .text "Internal Server Error" }
        { st1 with errorLog := { message := msg, hasStackTrace := true } :: st1.errorLog } := by
  unfold recoverPanic
  rw [h]
  rfl

/-- C5 witness: a concrete panicking handler is recovered into the generic
500 response and the logged stack trace. -/
theorem recoverPanic_recovers_witness :
    recoverPanic panickingHandlerC anonReqC st0C =
      .ok { status := 500
            headers := [("Connection", "close")]
            body := .text "Internal Server Error" }
        { st0C with
            errorLog := { message := "boom", hasStackTrace := true } :: st0C.errorLog } :=
  recoverPanic_recovers panickingHandlerC anonReqC st0C st0C "boom" rfl

/-- Helper: a login submission that passes the three form validations but
fails authentication with invalid credentials re-renders the login page with
status 422 whose form carries exactly the single non-field error and an
empty field-error map. -/
theorem userLoginPost_invalid_credentials_run
    (usersAuthenticate : String → String → Except AuthError Int)
    (r : Request) (st : AppState)
    (h1 : NotBlank ((r.form.lookup "email").getD "") = true)
    (h2 : Matches ((r.form.lookup "email").getD "") EmailRX = true)
    (h3 : NotBlank ((r.form.lookup "password").getD "") = true)
    (h4 : usersAuthenticate ((r.form.lookup "email").getD "")
        ((r.form.lookup "password").getD "") = .error .errInvalidCredentials) :
    userLoginPost usersAuthenticate r st =
      (render 422 "login.tmpl"
        { (newTemplateData r st).1 with
            Form := some { Email := (r.form.lookup "email").getD ""
                           Password := (r.form.lookup "password").getD ""
                           validator := { NonFieldErrors := ["Email or password is incorrect"]
                                          FieldErrors := [] } } },
       (newTemplateData r st).2) := by
  unfold userLoginPost
  rcases hT : newTemplateData r st with ⟨data, st1⟩
  simp [UserLoginForm.CheckField, Validator.CheckField, h1, h2, h3, h4,
    Validator.Valid, UserLoginForm.AddNonFieldError, Validator.AddNonFieldError]

/-- C9: a login submission that passes form validation but fails
authentication with invalid credentials is answered with 422, re-rendering
the login page with exactly one non-field error and no field-specific error
for any field, in particular neither for email nor for password. -/
theorem userLoginPost_wrong_credentials_non_field_error
    (usersAuthenticate : String → String → Except AuthError Int)
    (r : Request) (st : AppState)
    (h1 : NotBlank ((r.form.lookup "email").getD "") = true)
    (h2 : Matches ((r.form.lookup "email").getD "") EmailRX = true)
    (h3 : NotBlank ((r.form.lookup "password").getD "") = true)
    (h4 : usersAuthenticate ((r.form.lookup "email").getD "")
        ((r.form.lookup "password").getD "") = .error .errInvalidCredentials) :
    (userLoginPost usersAuthenticate r st).1.status = 422 ∧
    (userLoginPost usersAuthenticate r st).1.renderedPage = some "login.tmpl" ∧
    ((userLoginPost usersAuthenticate r st).1.renderedForm.map
        (fun f => f.validator.NonFieldErrors.length)) = some 1 ∧
    ((userLoginPost usersAuthenticate r st).1.renderedForm.map
        (fun f => f.validator.FieldErrors)) = some [] := by
  rw [userLoginPost_invalid_credentials_run usersAuthenticate r st h1 h2 h3 h4]
  refine ⟨rfl, rfl, rfl, rfl⟩

/-- C9 witness: the known email with a wrong password yields the 422
re-render with the lone non-field error. -/
theorem userLoginPost_wrong_credentials_non_field_error_witness :
    (userLoginPost usersAuthenticateC wrongPasswordReqC st0C).1.status = 422 ∧
    (userLoginPost usersAuthenticateC wrongPasswordReqC st0C).1.renderedPage
      = some "login.tmpl" ∧
    ((userLoginPost usersAuthenticateC wrongPasswordReqC st0C).1.renderedForm.map
        (fun f => f.validator.NonFieldErrors.length)) = some 1 ∧
    ((userLoginPost usersAuthenticateC wrongPasswordReqC st0C).1.renderedForm.map
        (fun f => f.validator.FieldErrors)) = some [] :=
  userLoginPost_wrong_credentials_non_field_error usersAuthenticateC
    wrongPasswordReqC st0C (by decide) (by decide) (by decide) rfl

/-- C1 counterexample: a concrete successful login (status 303, the session
now holds principal one, the session token was renewed away from `sessA`)
leaves the CSRF base token exactly as it was before the login, and a
subsequent state-changing request echoing the pre-login CSRF token is still
accepted: the CSRF guard passes it through to the handler instead of
rejecting it.  This falsifies both halves of the claim at this input. -/
theorem login_csrf_not_regenerated_counterexample :
    (loginPipeline usersExistsC usersAuthenticateC loginReqC st0C).1.status = 303 ∧
    (loginPipeline usersExistsC usersAuthenticateC loginReqC st0C).2.session.getInt
        "authenticatedUserID" = 1 ∧
    (loginPipeline usersExistsC usersAuthenticateC loginReqC st0C).2.session.token
      ≠ st0C.session.token ∧
    (loginPipeline usersExistsC usersAuthenticateC loginReqC st0C).2.csrfCookie
      = st0C.csrfCookie ∧
    noSurf probeHandler replayReqC
        (loginPipeline usersExistsC usersAuthenticateC loginReqC st0C).2
      = (probeResponse,
         (loginPipeline usersExistsC usersAuthenticateC loginReqC st0C).2) := by
  decide

/-- C1 amended: on every successful login (the authenticated branch of
`userLoginPost`), the session token is force-regenerated to a freshly
generated token and the principal is stored, but the CSRF token is not
regenerated: the client's CSRF base cookie is unchanged, so the pre-login
CSRF token remains the accepted one afterwards. -/
theorem userLoginPost_renews_session_token_only
    (usersAuthenticate : String → String → Except AuthError Int)
    (r : Request) (st : AppState) (id : Int)
    (h1 : NotBlank ((r.form.lookup "email").getD "") = true)
    (h2 : Matches ((r.form.lookup "email").getD "") EmailRX = true)
    (h3 : NotBlank ((r.form.lookup "password").getD "") = true)
    (h4 : usersAuthenticate ((r.form.lookup "email").getD "")
        ((r.form.lookup "password").getD "") = .ok id) :
    (userLoginPost usersAuthenticate r st).1 = redirectResponse "/snippet/create" 303 ∧
    (userLoginPost usersAuthenticate r st).2.session.token
      = freshToken st.freshCounter ∧
    (userLoginPost usersAuthenticate r st).2.csrfCookie = st.csrfCookie ∧
    (userLoginPost usersAuthenticate r st).2.session.getInt "authenticatedUserID"
      = id := by
  have hrun : userLoginPost usersAuthenticate r st =
      (redirectResponse "/snippet/create" 303,
       { st.renewToken with
           session := st.renewToken.session.put "authenticatedUserID" (.int id) }) := by
    unfold userLoginPost
    simp [UserLoginForm.CheckField, Validator.CheckField, h1, h2, h3, h4, Validator.Valid]
  rw [hrun]
  refine ⟨rfl, ?_, ?_, ?_⟩ <;>
    simp [AppState.renewToken, SessionRecord.put, SessionRecord.getInt, List.lookup]

/-- C1 amended witness: the concrete successful login renews the session
token, stores principal one, and leaves the CSRF cookie untouched. -/
theorem userLoginPost_renews_session_token_only_witness :
    (userLoginPost usersAuthenticateC loginReqC st0C).1
        = redirectResponse "/snippet/create" 303 ∧
    (userLoginPost usersAuthenticateC loginReqC st0C).2.session.token
      = freshToken st0C.freshCounter ∧
    (userLoginPost usersAuthenticateC loginReqC st0C).2.csrfCookie = st0C.csrfCookie ∧
    (userLoginPost usersAuthenticateC loginReqC st0C).2.session.getInt
        "authenticatedUserID" = 1 :=
  userLoginPost_renews_session_token_only usersAuthenticateC loginReqC st0C 1
    (by decide) (by decide) (by decide) rfl
